import Mathlib

/-!
Verification of the reactive view-computation logic of `src/dashboard.py`
(Austrian aircraft registry dashboard).

The file shallowly embeds the pure data transformations of the script:
label extraction (`get_sheet_label`), sheet loading (`load_sheet_data`) and
the callback `update_dashboard` (manufacturer filtering, grouping key
selection, `value_counts().head(top_n)`, the mass-distribution figure with
its kernel density curve, the summary cards and the 10-row table preview).

External library calls are embedded by their documented semantics:
`pd.read_excel` is an input (`ReadResult`), `pd.to_numeric` takes its
numeric-string parser as a parameter, `Series.value_counts()` counts
distinct non-missing values and sorts them by count descending with a
stable sort (pandas sorts with kind stable, so ties keep first-occurrence
order), `stats.gaussian_kde` is the Gaussian kernel density estimate with
the default Scott-rule bandwidth, and `np.linspace` is the arithmetic grid.
Numbers are embedded as rationals where the script holds data, and as real
numbers where the density curve is computed.
-/

namespace Dashboard

/-- A cell of a sheet: a string, a number (floats embedded as rationals), or
missing (pandas `NaN`). -/
inductive Value where
  | str (s : String)
  | num (q : ℚ)
  | missing
deriving DecidableEq, Repr

/-- A loaded sheet (`pd.DataFrame`): the header (column names) and the data
rows, each row a list of cells aligned with `cols`. -/
structure Sheet where
  cols : List String
  rows : List (List Value)
deriving DecidableEq, Repr

/-- Cell of `row` at the column named `c`: the entry at the position of `c`
in the header, `missing` when the column is absent or the row is short. -/
def cellAt (cols : List String) (row : List Value) (c : String) : Value :=
  match cols.findIdx? (fun d => d == c) with
  | some i => row.getD i Value.missing
  | none => Value.missing

/-- `df[c]`: the column named `c` as a list of cells, one per row. -/
def Sheet.col (df : Sheet) (c : String) : List Value :=
  df.rows.map (fun r => cellAt df.cols r c)

/-- `df.empty` in pandas: true when either axis has length zero, i.e. the
sheet has no rows or no columns. -/
def Sheet.isEmpty (df : Sheet) : Bool :=
  df.rows.isEmpty || df.cols.isEmpty

/-- The manufacturer column name used throughout `dashboard.py`. -/
def hersteller : String := "Hersteller"

/-- The model column name used in the both-mode grouping. -/
def modell : String := "Herstellerbezeichnung"

/-- The exact header of the maximum-takeoff-mass column. -/
def mass_col : String := "höchstzulässige Abflugmasse (kg)"

/-- The allow-list `sheets_with_descriptions` of `get_sheet_label`. -/
def sheets_with_descriptions : List String :=
  ["1.a", "1.b", "2.", "3.", "4.", "5.", "6."]

/-- Split a character list at every non-overlapping occurrence of the
separator `sep`, scanning left to right, as Python str.split does for a
non-empty separator.  `fuel` bounds the recursion (a call with
`fuel = l.length` never exhausts it, since every step consumes at least one
character when `sep` is non-empty). -/
def splitSepAux (sep : List Char) : Nat → List Char → List (List Char)
  | _, [] => [[]]
  | 0, l => [l]
  | fuel + 1, c :: cs =>
    if List.isPrefixOf sep (c :: cs) then
      [] :: splitSepAux sep fuel (List.drop sep.length (c :: cs))
    else
      match splitSepAux sep fuel cs with
      | [] => [[c]]
      | p :: ps => (c :: p) :: ps

/-- Python `s.split(sep)` for a non-empty separator `sep` (the empty
separator raises in Python and is mapped to the whole string here, a case
`get_sheet_label` never exercises since its separator is fixed). -/
def pySplit (s sep : String) : List String :=
  if sep.toList = [] then [s]
  else (splitSepAux sep.toList s.toList.length s.toList).map (fun l => String.mk l)

/-- `get_sheet_label` from `dashboard.py`.  The read of the title row's
first cell (`pd.read_excel(..., header=None, nrows=1)` followed by
`str(df.iloc[0, 0])`) is external I/O and is passed in as `firstCell`, with
`none` standing for a raised exception (the `except` branch, which logs and
falls through to the sheet name).  The Python substring test
`s0 in first_cell` where `s0` is the three-character dash delimiter holds
exactly when `splitOn` at that delimiter yields more than one part, which is
how it is rendered here. -/
def get_sheet_label (sheet_name : String) (firstCell : Option String) : String :=
  if sheet_name ∈ sheets_with_descriptions then
    match firstCell with
    | some first_cell =>
      if 1 < (pySplit first_cell " - ").length then
        let parts := pySplit first_cell " - "
        if 3 ≤ parts.length then
          sheet_name ++ " - " ++ parts.getD 2 ""
        else
          sheet_name
      else
        sheet_name
    | none => sheet_name
  else
    sheet_name

/-- The outcome of `pd.read_excel(xl, sheet_name=..., header=1)`: either a
raised exception (`failure`), or a table whose header `cols` is the source
sheet's second row and whose data rows are the rows after it — the title
row is consumed by `header=1` and is not part of the data. -/
inductive ReadResult where
  | failure
  | table (cols : List String) (rows : List (List Value))

/-- A row is dropped by `dropna(how=all)` exactly when every cell of the
row is missing. -/
def allMissing (row : List Value) : Bool :=
  row.all (fun v => v == Value.missing)

/-- One cell under `pd.to_numeric(..., errors=coerce)`, with `parse`
standing for the external numeric-string parser of pandas: numbers pass
through, missing stays missing, and a string becomes the parsed number or
missing when unparseable. -/
def coerceNumeric (parse : String → Option ℚ) : Value → Value
  | .num q => .num q
  | .missing => .missing
  | .str s =>
    match parse s with
    | some q => .num q
    | none => .missing

/-- Coerce the cell at index `i` of a row to numeric, leaving the row
unchanged when it has no entry at `i`. -/
def coerceMassRow (parse : String → Option ℚ) (i : Nat) (row : List Value) : List Value :=
  row.set i (coerceNumeric parse (row.getD i Value.missing))

/-- Position of the mass column in a header, when present. -/
def massIdx (cols : List String) : Option Nat :=
  cols.findIdx? (fun c => c == mass_col)

/-- `load_sheet_data` from `dashboard.py`: on a successful read, drop the
rows in which every field is missing, then coerce the mass column to
numeric when that column exists; on any read error, return an empty
DataFrame (no columns, no rows). -/
def load_sheet_data (parse : String → Option ℚ) (read : ReadResult) : Sheet :=
  match read with
  | .failure => { cols := [], rows := [] }
  | .table cols rows =>
    let kept := rows.filter (fun r => !allMissing r)
    match massIdx cols with
    | some i => { cols := cols, rows := kept.map (coerceMassRow parse i) }
    | none => { cols := cols, rows := kept }

/-- Distinct values in order of first occurrence, with `fuel` bounding the
recursion: each step keeps the head and discards its later duplicates.  A
call with `fuel = l.length` never exhausts the fuel, since every step
strictly shrinks the list. -/
def firstSeenAux : Nat → List Value → List Value
  | _, [] => []
  | 0, _ :: _ => []
  | fuel + 1, v :: vs => v :: firstSeenAux fuel (vs.filter (fun w => w ≠ v))

/-- The distinct values of a list in order of first occurrence (the key
order of the hash table behind `value_counts`). -/
def firstSeen (l : List Value) : List Value :=
  firstSeenAux l.length l

/-- Insert a counted group into a list sorted by descending count, placing
it before the first entry whose count does not exceed it: together with
`sortCountDesc` this is a stable descending sort on the count. -/
def insertDesc (x : Value × Nat) : List (Value × Nat) → List (Value × Nat)
  | [] => [x]
  | y :: ys => if y.2 ≤ x.2 then x :: y :: ys else y :: insertDesc x ys

/-- Stable sort of counted groups by descending count (insertion sort):
entries with equal counts keep their original relative order. -/
def sortCountDesc (l : List (Value × Nat)) : List (Value × Nat) :=
  l.foldr insertDesc []

/-- The counted groups of a list of keys, before sorting: one pair per
distinct non-missing key, in order of first occurrence, carrying the number
of occurrences of that key. -/
def tally (l : List Value) : List (Value × Nat) :=
  (firstSeen (l.filter (fun v => v ≠ Value.missing))).map (fun v => (v, l.count v))

/-- `Series.value_counts()` with pandas default arguments: drop the missing
values, count each distinct value, and sort by count in descending order
with a stable sort, so values with equal counts stay in first-occurrence
order. -/
def value_counts (l : List Value) : List (Value × Nat) :=
  sortCountDesc (tally l)

/-- `str(x)` on a cell, as `astype(str)` renders it: strings unchanged,
numbers rendered (the embedding renders the rational; the exact numeral
text is irrelevant to the claims), and `NaN` rendered as the text nan. -/
def Value.pyStr : Value → String
  | .str s => s
  | .num q => toString q
  | .missing => "nan"

/-- The first column name of a sheet (`df.columns[0]`; the dashboard only
reaches this with a non-empty header, since an empty header makes
`df.empty` true and returns early). -/
def firstCol (df : Sheet) : String :=
  df.cols.getD 0 ""

/-- Lines 223-232 of `dashboard.py`: the grouping key of one row.  In
both-mode with both columns present the code materialises a new Group
column from `astype(str)` of both cells joined by the dash separator, so
the key exists (is non-missing) for every record; otherwise it selects an
existing column, falling back to Hersteller and then to the first column. -/
def groupKey (df : Sheet) (group_by : String) (r : List Value) : Value :=
  if group_by = "both" then
    if hersteller ∈ df.cols ∧ modell ∈ df.cols then
      Value.str ((cellAt df.cols r hersteller).pyStr ++ " - " ++ (cellAt df.cols r modell).pyStr)
    else if hersteller ∈ df.cols then
      cellAt df.cols r hersteller
    else
      cellAt df.cols r (firstCol df)
  else if group_by ∈ df.cols then
    cellAt df.cols r group_by
  else
    cellAt df.cols r (firstCol df)

/-- The column `df[group_col]` of grouping keys, one per row. -/
def groupKeys (df : Sheet) (group_by : String) : List Value :=
  df.rows.map (groupKey df group_by)

/-- Line 235 of `dashboard.py`:
`df[group_col].value_counts().head(top_n)` — the bar-chart data. -/
def group_counts (df : Sheet) (group_by : String) (top_n : Nat) : List (Value × Nat) :=
  (value_counts (groupKeys df group_by)).take top_n

/-- `Series.isin` of one cell against the selected manufacturer names: true
exactly for a string cell whose text is among the selected names (a missing
cell matches nothing; the dropdown only ever offers the non-missing values
of the Hersteller column). -/
def isinStr (v : Value) (sel : List String) : Bool :=
  match v with
  | .str s => sel.contains s
  | _ => false

/-- Lines 214-216 of `dashboard.py`: when a non-empty manufacturer
selection exists and the sheet has the Hersteller column, keep only the
rows whose Hersteller cell is among the selected names; otherwise leave the
sheet untouched. -/
def applyManufacturerFilter (df : Sheet) (sel : List String) : Sheet :=
  if sel ≠ [] ∧ hersteller ∈ df.cols then
    { df with rows := df.rows.filter (fun r => isinStr (cellAt df.cols r hersteller) sel) }
  else
    df

/-- The mass column with its missing cells dropped
(`df[mass_col].dropna()`). -/
def massNonMissing (df : Sheet) : List Value :=
  (df.col mass_col).filter (fun v => v ≠ Value.missing)

/-- A numeric cell as a rational. -/
def Value.asNum : Value → Option ℚ
  | .num q => some q
  | _ => none

/-- The numeric values of the mass column.  After `load_sheet_data` the
mass column holds only numbers and missing cells, so these are exactly its
non-missing values. -/
def massNums (df : Sheet) : List ℚ :=
  (df.col mass_col).filterMap Value.asNum

/-- The mass-distribution output of `update_dashboard` (lines 252-304): the
column-not-found annotation when the sheet lacks the mass column, the
no-mass-data annotation when the column exists but every cell is missing,
and otherwise the histogram-plus-density figure drawn from the non-missing
mass values (the density curve over these values is `kde_curve`). -/
inductive DistResult where
  | columnNotFound
  | noMassData
  | plot (massData : List ℚ)
deriving DecidableEq, Repr

/-- Lines 252-256 and 299-304 of `dashboard.py`: choose between the two
sentinel figures and the populated distribution figure. -/
def density_result (df : Sheet) : DistResult :=
  if mass_col ∈ df.cols then
    if 0 < (massNonMissing df).length then
      DistResult.plot ((massNonMissing df).filterMap Value.asNum)
    else
      DistResult.noMassData
  else
    DistResult.columnNotFound

/-- The summary cards (lines 306-346): total row count, distinct
non-missing manufacturer count, mean and maximum of the non-missing mass
values; `none` renders the text N/A. -/
structure Summary where
  total : Nat
  uniqueManufacturers : Option Nat
  meanMass : Option ℚ
  maxMass : Option ℚ
deriving DecidableEq, Repr

/-- Maximum of a list of rationals (`Series.max()` over the non-missing
values; the dashboard only reads it behind a non-empty guard). -/
def listMax : List ℚ → ℚ
  | [] => 0
  | x :: xs => xs.foldl max x

/-- Lines 306-346 of `dashboard.py`: the four summary cards.  `nunique`
counts distinct non-missing values; the mean and max cards render N/A
exactly when the mass column is absent or `isna().all()` holds of it. -/
def summary_cards (df : Sheet) : Summary :=
  { total := df.rows.length
    uniqueManufacturers :=
      if hersteller ∈ df.cols then
        some ((df.col hersteller).filter (fun v => v ≠ Value.missing)).dedup.length
      else
        none
    meanMass :=
      if mass_col ∈ df.cols ∧ ¬∀ v ∈ df.col mass_col, v = Value.missing then
        some ((massNums df).sum / ((massNums df).length : ℚ))
      else
        none
    maxMass :=
      if mass_col ∈ df.cols ∧ ¬∀ v ∈ df.col mass_col, v = Value.missing then
        some (listMax (massNums df))
      else
        none }

/-- The value returned by the `update_dashboard` callback: the all-outputs
no-data sentinel (lines 209-212), the all-outputs sentinel for a selection
that filters everything away (lines 218-221), or the four computed views —
bar-chart data, distribution result, summary cards and the 10-row table
preview.  In both-mode the table preview additionally shows the helper
Group column; the embedding keeps the underlying rows. -/
inductive DashboardOutput where
  | noData
  | noDataForSelected
  | views (chart : List (Value × Nat)) (dist : DistResult)
      (summary : Summary) (table : List (List Value))
deriving DecidableEq, Repr

/-- The `update_dashboard` callback on an already loaded sheet
(`df0 = load_sheet_data(selected_sheet)`), faithful to the control flow of
lines 203-355: empty sheet → no-data sentinel; then the manufacturer
filter, whose empty result (checked only when the filter was applied) →
the selected-manufacturers sentinel; otherwise the four views over the
filtered sheet.  The function is total: every selection yields a value. -/
def update_dashboard (df0 : Sheet) (group_by : String) (top_n : Nat)
    (sel : List String) : DashboardOutput :=
  if df0.isEmpty then
    DashboardOutput.noData
  else
    let df := applyManufacturerFilter df0 sel
    if (sel ≠ [] ∧ hersteller ∈ df0.cols) ∧ df.isEmpty then
      DashboardOutput.noDataForSelected
    else
      DashboardOutput.views (group_counts df group_by top_n) (density_result df)
        (summary_cards df) (df.rows.take 10)

/-- Minimum of a list of rationals (`Series.min()` over the non-missing
values; the dashboard only reads it behind a non-empty guard). -/
def listMin : List ℚ → ℚ
  | [] => 0
  | x :: xs => xs.foldl min x

/-- `np.linspace(a, b, num)`: `num` points from `a` to `b` inclusive, the
i-th being `a + i*(b-a)/(num-1)`, so consecutive points differ by the
constant step `(b-a)/(num-1)`. -/
def linspace (a b : ℚ) (num : Nat) : List ℚ :=
  (List.range num).map (fun i : Nat => a + (i : ℚ) * (b - a) / ((num : ℚ) - 1))

/-- The unbiased sample variance of a dataset,
`np.cov(dataset, rowvar=1, bias=False)` in one dimension: the mean squared
deviation from the mean with Bessel's `n - 1` correction.  This is the data
covariance `stats.gaussian_kde` scales by the squared Scott factor, and the
quantity whose vanishing makes that covariance singular. -/
def sampleVar (data : List ℚ) : ℚ :=
  let n : ℚ := (data.length : ℚ)
  let mean : ℚ := data.sum / n
  (data.map (fun q => (q - mean) ^ 2)).sum / (n - 1)

/-- The value `scipy.stats.gaussian_kde` computes at `x` on one-dimensional
data with the default Scott-rule bandwidth, when its construction succeeds:
the kernel covariance is the unbiased sample variance of the data scaled by
the square of the Scott factor `n^(-1/5)`, and the estimate at `x` averages
Gaussian kernels of that covariance centred at the data points.  The
formula is a deterministic function of the data alone.  It is meaningful
only where the construction does not raise — `scipy_kde_curve` models the
raising construction, and this raw formula is only ever read through it on
a dataset of positive sample variance. -/
noncomputable def gaussian_kde (data : List ℚ) (x : ℚ) : ℝ :=
  let n : ℝ := (data.length : ℝ)
  let cov : ℝ := (sampleVar data : ℝ) * n ^ ((-2 : ℝ) / 5)
  (data.map (fun q => Real.exp (-(((x : ℝ) - (q : ℝ)) ^ 2) / (2 * cov)))).sum
    / (n * Real.sqrt (2 * Real.pi * cov))

/-- The density curve drawn in the populated distribution figure when the
KDE construction succeeds: the KDE evaluated at the 200-point linspace
across the data's min and max, plotted as an x-y line trace. -/
noncomputable def kde_curve (data : List ℚ) : List (ℚ × ℝ) :=
  (linspace (listMin data) (listMax data) 200).map (fun x => (x, gaussian_kde data x))

/-- Lines 269-284 of `dashboard.py` as the program actually runs them:
`stats.gaussian_kde(mass_data)` raises `ValueError` on a dataset of fewer
than two elements and `numpy.linalg.LinAlgError` when the data covariance
is singular, which in one dimension is a zero sample variance (all values
equal); on those inputs the callback throws and no curve exists, modelled
as `none`.  Otherwise the construction succeeds and the curve is the KDE
evaluated on the 200-point linspace. -/
noncomputable def scipy_kde_curve (data : List ℚ) : Option (List (ℚ × ℝ)) :=
  if data.length ≤ 1 ∨ sampleVar data = 0 then
    none
  else
    some (kde_curve data)

end Dashboard

namespace Dashboard

/-- C3: for every sheet identifier, label extraction returns
`"{sheetId} - {segment[2]}"` exactly when the identifier is in the fixed
allow-list and the title cell splits on the dash delimiter into at least
three segments; in every other case (allow-list miss, fewer than three
segments, or a read error) it returns the sheet identifier unchanged.  The
embedding is a total function, so no input raises. -/
theorem C3_get_sheet_label_spec (sheet_name : String) (firstCell : Option String) :
    (∀ c, firstCell = some c →
      sheet_name ∈ sheets_with_descriptions →
      3 ≤ (pySplit c " - ").length →
      get_sheet_label sheet_name firstCell
        = sheet_name ++ " - " ++ (pySplit c " - ").getD 2 "") ∧
    ((sheet_name ∉ sheets_with_descriptions ∨ firstCell = none ∨
        ∀ c, firstCell = some c → (pySplit c " - ").length < 3) →
      get_sheet_label sheet_name firstCell = sheet_name) := by
  constructor
  · intro c hc hmem hlen
    subst hc
    simp only [get_sheet_label, if_pos hmem]
    rw [if_pos (by omega), if_pos hlen]
  · intro h
    unfold get_sheet_label
    rcases h with hmem | hnone | hshort
    · rw [if_neg hmem]
    · subst hnone; simp
    · split
      · cases firstCell with
        | none => rfl
        | some c =>
          have := hshort c rfl
          simp only
          split
          · rw [if_neg (by omega)]
          · rfl
      · rfl

/-- Witness for C3 at a concrete allow-listed sheet and title cell. -/
theorem C3_get_sheet_label_spec_witness :
    get_sheet_label "2." (some "Luftfahrzeuge - Teil 1 - Flugzeuge - x") = "2. - Flugzeuge" := by
  have h := (C3_get_sheet_label_spec "2." (some "Luftfahrzeuge - Teil 1 - Flugzeuge - x")).1
    "Luftfahrzeuge - Teil 1 - Flugzeuge - x" rfl (by decide) (by decide)
  rw [h]
  rfl

/-- Coercion to numeric never produces a string cell. -/
theorem coerceNumeric_ne_str (parse : String → Option ℚ) (v : Value) (s : String) :
    coerceNumeric parse v ≠ Value.str s := by
  cases v with
  | str t =>
    cases hp : parse t <;> simp [coerceNumeric, hp]
  | num q => simp [coerceNumeric]
  | missing => simp [coerceNumeric]

/-- The mass cell of a coerced row is never a string: either the row has an
entry at the mass position and it was coerced, or it has none and the cell
reads as missing. -/
theorem coerceMassRow_not_str (parse : String → Option ℚ) (i : Nat)
    (row : List Value) (s : String) :
    (coerceMassRow parse i row).getD i Value.missing ≠ Value.str s := by
  unfold coerceMassRow
  rcases Nat.lt_or_ge i row.length with h | h
  · rw [List.getD_eq_getElem?_getD, List.getElem?_set_self h]
    exact fun hc => coerceNumeric_ne_str parse _ s (by simpa using hc)
  · rw [List.set_eq_of_length_le h, List.getD_eq_getElem?_getD, List.getElem?_eq_none h]
    simp

/-- C4: the loader keeps exactly the rows that are not entirely missing, in
their original order; it coerces the mass column to numeric when that
column exists in the header (so no loaded row has a string in the mass
cell); and a read failure yields an empty sheet with zero records instead
of propagating.  Rows of a successful read start after the title row by
construction of `ReadResult.table` (the `header=1` read). -/
theorem C4_load_sheet_data_spec (parse : String → Option ℚ)
    (cols : List String) (rows : List (List Value)) :
    (load_sheet_data parse ReadResult.failure).rows = [] ∧
    (load_sheet_data parse ReadResult.failure).cols = [] ∧
    (load_sheet_data parse (ReadResult.table cols rows)).cols = cols ∧
    (∀ i, massIdx cols = some i →
      (load_sheet_data parse (ReadResult.table cols rows)).rows
        = (rows.filter (fun r => !allMissing r)).map (coerceMassRow parse i)) ∧
    (massIdx cols = none →
      (load_sheet_data parse (ReadResult.table cols rows)).rows
        = rows.filter (fun r => !allMissing r)) ∧
    ((load_sheet_data parse (ReadResult.table cols rows)).rows.length
      = (rows.filter (fun r => !allMissing r)).length) ∧
    (∀ i, massIdx cols = some i →
      ∀ r ∈ (load_sheet_data parse (ReadResult.table cols rows)).rows,
        ∀ s : String, r.getD i Value.missing ≠ Value.str s) := by
  have htab : ∀ i, massIdx cols = some i →
      load_sheet_data parse (ReadResult.table cols rows)
        = { cols := cols,
            rows := (rows.filter (fun r => !allMissing r)).map (coerceMassRow parse i) } := by
    intro i hi
    simp only [load_sheet_data, hi]
  have htabn : massIdx cols = none →
      load_sheet_data parse (ReadResult.table cols rows)
        = { cols := cols, rows := rows.filter (fun r => !allMissing r) } := by
    intro hn
    simp only [load_sheet_data, hn]
  refine ⟨rfl, rfl, ?_, ?_, ?_, ?_, ?_⟩
  · cases h : massIdx cols
    · rw [htabn h]
    · rw [htab _ h]
  · intro i hi
    rw [htab i hi]
  · intro hn
    rw [htabn hn]
  · cases h : massIdx cols
    · rw [htabn h]
    · rw [htab _ h]
      simp
  · intro i hi r hr s
    rw [htab i hi] at hr
    simp only [List.mem_map] at hr
    obtain ⟨r0, _, hr0⟩ := hr
    rw [← hr0]
    exact coerceMassRow_not_str parse i r0 s

/-- Witness for C4 at a concrete read with an all-missing row, a numeric
string in the mass column, and a mass header in second position. -/
theorem C4_load_sheet_data_spec_witness :
    (load_sheet_data (fun _ => some 7) ReadResult.failure).rows = [] ∧
    (load_sheet_data (fun _ => some 7)
        (ReadResult.table ["Hersteller", "höchstzulässige Abflugmasse (kg)"]
          [[Value.missing, Value.missing], [Value.str "Cessna", Value.str "1000"]])).rows
      = [[Value.str "Cessna", Value.num 7]] := by
  have h := C4_load_sheet_data_spec (fun _ => some 7)
    ["Hersteller", "höchstzulässige Abflugmasse (kg)"]
    [[Value.missing, Value.missing], [Value.str "Cessna", Value.str "1000"]]
  refine ⟨h.1, ?_⟩
  rw [h.2.2.2.1 1 (by decide)]
  rfl

/-- Membership in `firstSeenAux` with adequate fuel is membership in the
input list. -/
theorem mem_firstSeenAux (fuel : Nat) : ∀ l : List Value, l.length ≤ fuel →
    ∀ v, (v ∈ firstSeenAux fuel l ↔ v ∈ l) := by
  induction fuel with
  | zero =>
    intro l hl v
    cases l with
    | nil => simp [firstSeenAux]
    | cons a as => simp at hl
  | succ fuel ih =>
    intro l hl v
    cases l with
    | nil => simp [firstSeenAux]
    | cons w ws =>
      have hlen : (ws.filter (fun x => x ≠ w)).length ≤ fuel := by
        have h1 := List.length_filter_le (fun x => decide (x ≠ w)) ws
        simp only [List.length_cons] at hl
        omega
      simp only [firstSeenAux, List.mem_cons]
      constructor
      · rintro (rfl | h)
        · exact Or.inl rfl
        · exact Or.inr (List.mem_of_mem_filter ((ih _ hlen v).mp h))
      · rintro (rfl | h)
        · exact Or.inl rfl
        · by_cases hv : v = w
          · exact Or.inl hv
          · exact Or.inr ((ih _ hlen v).mpr (List.mem_filter.mpr ⟨h, by simp [hv]⟩))

/-- Membership in `firstSeen` is membership in the input list. -/
theorem mem_firstSeen (l : List Value) (v : Value) : v ∈ firstSeen l ↔ v ∈ l :=
  mem_firstSeenAux l.length l le_rfl v

/-- `firstSeenAux` with adequate fuel has no duplicates. -/
theorem firstSeenAux_nodup (fuel : Nat) : ∀ l : List Value, l.length ≤ fuel →
    (firstSeenAux fuel l).Nodup := by
  induction fuel with
  | zero =>
    intro l _
    cases l <;> simp [firstSeenAux]
  | succ fuel ih =>
    intro l hl
    cases l with
    | nil => simp [firstSeenAux]
    | cons w ws =>
      have hlen : (ws.filter (fun x => x ≠ w)).length ≤ fuel := by
        have h1 := List.length_filter_le (fun x => decide (x ≠ w)) ws
        simp only [List.length_cons] at hl
        omega
      simp only [firstSeenAux]
      refine List.nodup_cons.mpr ⟨?_, ih _ hlen⟩
      intro hmem
      have h1 := (mem_firstSeenAux fuel _ hlen w).mp hmem
      have h2 := (List.mem_filter.mp h1).2
      simp at h2

/-- `firstSeen` has no duplicates. -/
theorem firstSeen_nodup (l : List Value) : (firstSeen l).Nodup :=
  firstSeenAux_nodup l.length l le_rfl

/-- The length of `firstSeen` is the number of distinct values. -/
theorem firstSeen_length_eq_card (l : List Value) :
    (firstSeen l).length = l.toFinset.card := by
  have h1 : (firstSeen l).toFinset = l.toFinset := by
    ext v
    simp [List.mem_toFinset, mem_firstSeen]
  calc (firstSeen l).length
      = (firstSeen l).toFinset.card := (List.toFinset_card_of_nodup (firstSeen_nodup l)).symm
    _ = l.toFinset.card := by rw [h1]

/-- Inserting into a list permutes consing onto it. -/
theorem insertDesc_perm (x : Value × Nat) (l : List (Value × Nat)) :
    (insertDesc x l).Perm (x :: l) := by
  induction l with
  | nil => exact List.Perm.refl _
  | cons y ys ih =>
    simp only [insertDesc]
    by_cases h : y.2 ≤ x.2
    · rw [if_pos h]
    · rw [if_neg h]
      exact (List.Perm.cons y ih).trans (List.Perm.swap x y ys)

/-- Sorting by descending count permutes the input. -/
theorem sortCountDesc_perm (l : List (Value × Nat)) : (sortCountDesc l).Perm l := by
  induction l with
  | nil => exact List.Perm.refl _
  | cons x xs ih =>
    have h : sortCountDesc (x :: xs) = insertDesc x (sortCountDesc xs) := rfl
    rw [h]
    exact (insertDesc_perm x _).trans (List.Perm.cons x ih)

/-- Inserting into a descending-sorted list keeps it descending-sorted. -/
theorem insertDesc_sorted (x : Value × Nat) (l : List (Value × Nat))
    (h : l.Pairwise (fun a b => b.2 ≤ a.2)) :
    (insertDesc x l).Pairwise (fun a b => b.2 ≤ a.2) := by
  induction l with
  | nil => simp [insertDesc]
  | cons y ys ih =>
    rcases List.pairwise_cons.mp h with ⟨hy, hys⟩
    simp only [insertDesc]
    by_cases hxy : y.2 ≤ x.2
    · rw [if_pos hxy]
      refine List.pairwise_cons.mpr ⟨?_, h⟩
      intro b hb
      rcases List.mem_cons.mp hb with rfl | hb
      · exact hxy
      · exact le_trans (hy b hb) hxy
    · rw [if_neg hxy]
      refine List.pairwise_cons.mpr ⟨?_, ih hys⟩
      intro b hb
      rcases List.mem_cons.mp ((insertDesc_perm x ys).mem_iff.mp hb) with rfl | hb'
      · omega
      · exact hy b hb'

/-- The sort by descending count is descending-sorted. -/
theorem sortCountDesc_sorted (l : List (Value × Nat)) :
    (sortCountDesc l).Pairwise (fun a b => b.2 ≤ a.2) := by
  induction l with
  | nil => simp [sortCountDesc]
  | cons x xs ih =>
    have h : sortCountDesc (x :: xs) = insertDesc x (sortCountDesc xs) := rfl
    rw [h]
    exact insertDesc_sorted x _ ih

/-- Stability of the insertion: restricted to any one count, inserting is
consing, so the relative order of equal counts never changes. -/
theorem insertDesc_filter_count (x : Value × Nat) (l : List (Value × Nat)) (c : Nat) :
    (insertDesc x l).filter (fun p => p.2 == c)
      = (x :: l).filter (fun p => p.2 == c) := by
  induction l with
  | nil => simp [insertDesc]
  | cons y ys ih =>
    simp only [insertDesc]
    by_cases hxy : y.2 ≤ x.2
    · rw [if_pos hxy]
    · rw [if_neg hxy]
      by_cases hx : x.2 = c
      · by_cases hy : y.2 = c
        · exact absurd (le_of_eq (hy.trans hx.symm)) hxy
        · simp only [List.filter_cons, ih]
          simp [hx, hy]
      · by_cases hy : y.2 = c <;>
          · simp only [List.filter_cons, ih]
            simp [hx, hy]

/-- Stability of the sort: restricted to any one count, sorting by
descending count is the identity, so groups with equal counts appear in
their original (first-seen) order. -/
theorem sortCountDesc_filter_count (l : List (Value × Nat)) (c : Nat) :
    (sortCountDesc l).filter (fun p => p.2 == c) = l.filter (fun p => p.2 == c) := by
  induction l with
  | nil => rfl
  | cons x xs ih =>
    have h : sortCountDesc (x :: xs) = insertDesc x (sortCountDesc xs) := rfl
    rw [h, insertDesc_filter_count]
    simp only [List.filter_cons, ih]

/-- The number of counted groups is the number of distinct non-missing
keys. -/
theorem tally_length (l : List Value) :
    (tally l).length = (l.filter (fun v => v ≠ Value.missing)).toFinset.card := by
  unfold tally
  rw [List.length_map, firstSeen_length_eq_card]

/-- C1: the aggregation counts records per group key (every returned pair
carries the exact number of records with that key, and only keys occurring
in the sheet appear), sorts the groups in descending order of count, and
truncates to the first `topN`; the pre-sort tally lists the distinct keys
in first-seen order, and the sort is stable — restricted to any one count
value it is the identity, so groups with equal counts keep their
first-seen order.  The sheet here is the one the manufacturer filter was
already applied to, and `value_counts` drops records with a missing key. -/
theorem C1_group_counts_spec (df : Sheet) (group_by : String) (top_n : Nat) :
    (∀ p ∈ group_counts df group_by top_n,
        p.1 ∈ groupKeys df group_by ∧ p.1 ≠ Value.missing ∧
        p.2 = (groupKeys df group_by).count p.1) ∧
    (group_counts df group_by top_n).Pairwise (fun a b => b.2 ≤ a.2) ∧
    group_counts df group_by top_n = (value_counts (groupKeys df group_by)).take top_n ∧
    ((tally (groupKeys df group_by)).map Prod.fst
        = firstSeen ((groupKeys df group_by).filter (fun v => v ≠ Value.missing))) ∧
    (∀ c : Nat, (value_counts (groupKeys df group_by)).filter (fun p => p.2 == c)
        = (tally (groupKeys df group_by)).filter (fun p => p.2 == c)) := by
  have hperm := sortCountDesc_perm (tally (groupKeys df group_by))
  refine ⟨?_, ?_, rfl, ?_, ?_⟩
  · intro p hp
    have hp1 : p ∈ value_counts (groupKeys df group_by) := List.mem_of_mem_take hp
    have hp2 : p ∈ tally (groupKeys df group_by) := hperm.mem_iff.mp hp1
    unfold tally at hp2
    rcases List.mem_map.mp hp2 with ⟨v, hv, rfl⟩
    have hvf := (mem_firstSeen _ v).mp hv
    have hvm := List.mem_filter.mp hvf
    refine ⟨List.mem_of_mem_filter hvf, ?_, rfl⟩
    simpa using hvm.2
  · exact List.Pairwise.sublist (List.take_sublist _ _) (sortCountDesc_sorted _)
  · unfold tally
    rw [List.map_map]
    have hid : (Prod.fst ∘ fun v => (v, (groupKeys df group_by).count v)) = id := rfl
    rw [hid, List.map_id]
  · intro c
    exact sortCountDesc_filter_count _ c

/-- Witness for C1 on the specification's three-row scenario sheet: the
Cessna group is counted twice, and the sort restricted to count one is the
identity. -/
theorem C1_group_counts_spec_witness :
    ((Value.str "Cessna", 2).2
        = (groupKeys ⟨["Hersteller"],
            [[Value.str "Cessna"], [Value.str "Cessna"], [Value.str "Piper"]]⟩
            "Hersteller").count (Value.str "Cessna", 2).1) ∧
    ((value_counts (groupKeys ⟨["Hersteller"],
            [[Value.str "Cessna"], [Value.str "Cessna"], [Value.str "Piper"]]⟩
            "Hersteller")).filter (fun p => p.2 == 1)
        = (tally (groupKeys ⟨["Hersteller"],
            [[Value.str "Cessna"], [Value.str "Cessna"], [Value.str "Piper"]]⟩
            "Hersteller")).filter (fun p => p.2 == 1)) := by
  have h := C1_group_counts_spec
    ⟨["Hersteller"], [[Value.str "Cessna"], [Value.str "Cessna"], [Value.str "Piper"]]⟩
    "Hersteller" 5
  exact ⟨(h.1 (Value.str "Cessna", 2) (by decide)).2.2, h.2.2.2.2 1⟩

/-- C9: the aggregation output never exceeds `topN` entries, and when
`topN` is at least the number of distinct (non-missing) group keys of the
filtered sheet, the output has exactly one entry per distinct group key. -/
theorem C9_group_counts_length (df : Sheet) (group_by : String) (top_n : Nat) :
    (group_counts df group_by top_n).length ≤ top_n ∧
    (((groupKeys df group_by).filter (fun v => v ≠ Value.missing)).toFinset.card ≤ top_n →
      (group_counts df group_by top_n).length
        = ((groupKeys df group_by).filter (fun v => v ≠ Value.missing)).toFinset.card) := by
  have hlen : (value_counts (groupKeys df group_by)).length
      = ((groupKeys df group_by).filter (fun v => v ≠ Value.missing)).toFinset.card := by
    unfold value_counts
    rw [(sortCountDesc_perm _).length_eq, tally_length]
  constructor
  · unfold group_counts
    rw [List.length_take]
    exact min_le_left _ _
  · intro h
    unfold group_counts
    rw [List.length_take, hlen, Nat.min_eq_right h]

/-- Witness for C9 on the scenario sheet: two distinct manufacturers, so
`topN = 5` returns exactly two groups. -/
theorem C9_group_counts_length_witness :
    (group_counts ⟨["Hersteller"],
        [[Value.str "Cessna"], [Value.str "Cessna"], [Value.str "Piper"]]⟩
        "Hersteller" 5).length = 2 := by
  have h := C9_group_counts_length
    ⟨["Hersteller"], [[Value.str "Cessna"], [Value.str "Cessna"], [Value.str "Piper"]]⟩
    "Hersteller" 5
  exact (h.2 (by decide)).trans (by decide)

/-- A non-empty sheet whose header contains the Hersteller column is not
`df.empty`. -/
theorem isEmpty_false_of_rows_col (df : Sheet) (hrows : df.rows ≠ [])
    (hcol : hersteller ∈ df.cols) : df.isEmpty = false := by
  simp [Sheet.isEmpty, hrows, List.ne_nil_of_mem hcol]

/-- When the update is not short-circuited by a sentinel, it returns the
four views over the filtered sheet. -/
theorem update_dashboard_views (df : Sheet) (group_by : String) (top_n : Nat)
    (sel : List String) (hemp : df.isEmpty = false)
    (hok : ¬((sel ≠ [] ∧ hersteller ∈ df.cols)
        ∧ (applyManufacturerFilter df sel).isEmpty = true)) :
    update_dashboard df group_by top_n sel
      = DashboardOutput.views
          (group_counts (applyManufacturerFilter df sel) group_by top_n)
          (density_result (applyManufacturerFilter df sel))
          (summary_cards (applyManufacturerFilter df sel))
          ((applyManufacturerFilter df sel).rows.take 10) := by
  simp only [update_dashboard]
  rw [if_neg (by simp [hemp]), if_neg hok]

/-- C2: with a non-empty manufacturer selection on a sheet that has the
Hersteller column, the filter retains exactly the records whose Hersteller
cell is among the selected names (stated both as the filtered row list and
as a membership equivalence); when nothing remains, `update_dashboard`
returns the dedicated selected-manufacturers sentinel as its single value
covering all four outputs, and when something remains it returns the four
computed views — in either case a value, never an exception (the embedding
is a total function).  A sheet without the Hersteller column skips the
filter entirely; that behaviour is claim C10. -/
theorem C2_manufacturer_filter_spec (df : Sheet) (group_by : String) (top_n : Nat)
    (sel : List String) (hsel : sel ≠ []) (hcol : hersteller ∈ df.cols)
    (hrows : df.rows ≠ []) :
    ((applyManufacturerFilter df sel).rows
        = df.rows.filter (fun r => isinStr (cellAt df.cols r hersteller) sel)) ∧
    (∀ r, r ∈ (applyManufacturerFilter df sel).rows ↔
        r ∈ df.rows ∧ isinStr (cellAt df.cols r hersteller) sel = true) ∧
    ((applyManufacturerFilter df sel).rows = [] →
        update_dashboard df group_by top_n sel = DashboardOutput.noDataForSelected) ∧
    ((applyManufacturerFilter df sel).rows ≠ [] →
        update_dashboard df group_by top_n sel
          = DashboardOutput.views
              (group_counts (applyManufacturerFilter df sel) group_by top_n)
              (density_result (applyManufacturerFilter df sel))
              (summary_cards (applyManufacturerFilter df sel))
              ((applyManufacturerFilter df sel).rows.take 10)) := by
  have hA : sel ≠ [] ∧ hersteller ∈ df.cols := ⟨hsel, hcol⟩
  have happ : applyManufacturerFilter df sel
      = { cols := df.cols,
          rows := df.rows.filter (fun r => isinStr (cellAt df.cols r hersteller) sel) } := by
    unfold applyManufacturerFilter
    rw [if_pos hA]
  have hemp : df.isEmpty = false := isEmpty_false_of_rows_col df hrows hcol
  refine ⟨by rw [happ], ?_, ?_, ?_⟩
  · intro r
    rw [happ]
    simp [List.mem_filter]
  · intro hnil
    have h1 : (applyManufacturerFilter df sel).isEmpty = true := by
      simp [Sheet.isEmpty, hnil]
    simp only [update_dashboard]
    rw [if_neg (by simp [hemp]), if_pos ⟨hA, h1⟩]
  · intro hnil
    refine update_dashboard_views df group_by top_n sel hemp ?_
    rintro ⟨-, h1⟩
    rw [happ] at h1 hnil
    simp only [Sheet.isEmpty, List.isEmpty_iff, Bool.or_eq_true] at h1
    rcases h1 with h1 | h1
    · exact hnil h1
    · exact List.ne_nil_of_mem hcol h1

/-- Witness for C2 on the specification's Boeing scenario: a one-row Cessna
sheet filtered to Boeing keeps no record and yields the dedicated
sentinel. -/
theorem C2_manufacturer_filter_spec_witness :
    (applyManufacturerFilter ⟨["Hersteller"], [[Value.str "Cessna"]]⟩ ["Boeing"]).rows = [] ∧
    update_dashboard ⟨["Hersteller"], [[Value.str "Cessna"]]⟩ "Hersteller" 10 ["Boeing"]
      = DashboardOutput.noDataForSelected := by
  have h := C2_manufacturer_filter_spec ⟨["Hersteller"], [[Value.str "Cessna"]]⟩
    "Hersteller" 10 ["Boeing"] (by decide) (by decide) (by decide)
  have hnil : (applyManufacturerFilter ⟨["Hersteller"], [[Value.str "Cessna"]]⟩
      ["Boeing"]).rows = [] := by
    rw [h.1]
    rfl
  exact ⟨hnil, h.2.2.1 hnil⟩

/-- C10: with a non-empty selection but no Hersteller column in the loaded
sheet, no filtering happens at all — the filter step is the identity, the
callback behaves exactly as with an empty selection, and (for a non-empty
sheet) the chart, distribution, summary and table are the views of the
unfiltered sheet rather than the empty-result sentinel. -/
theorem C10_no_hersteller_no_filter (df : Sheet) (group_by : String) (top_n : Nat)
    (sel : List String) (hcol : hersteller ∉ df.cols) :
    applyManufacturerFilter df sel = df ∧
    update_dashboard df group_by top_n sel = update_dashboard df group_by top_n [] ∧
    (df.isEmpty = false →
      update_dashboard df group_by top_n sel
        = DashboardOutput.views (group_counts df group_by top_n) (density_result df)
            (summary_cards df) (df.rows.take 10)) := by
  have happ : ∀ s : List String, applyManufacturerFilter df s = df := by
    intro s
    unfold applyManufacturerFilter
    rw [if_neg (fun h => hcol h.2)]
  have hview : ∀ s : List String, df.isEmpty = false →
      update_dashboard df group_by top_n s
        = DashboardOutput.views (group_counts df group_by top_n) (density_result df)
            (summary_cards df) (df.rows.take 10) := by
    intro s hemp
    have h := update_dashboard_views df group_by top_n s hemp
      (fun hc => hcol hc.1.2)
    rw [h, happ s]
  refine ⟨happ sel, ?_, hview sel⟩
  by_cases hemp : df.isEmpty = true
  · simp only [update_dashboard]
    rw [if_pos hemp, if_pos hemp]
  · have hemp' : df.isEmpty = false := by simpa using hemp
    rw [hview sel hemp', hview [] hemp']

/-- Witness for C10: a sheet with only a model column, a non-empty Boeing
selection, and every record retained in the computed views. -/
theorem C10_no_hersteller_no_filter_witness :
    applyManufacturerFilter ⟨["Herstellerbezeichnung"], [[Value.str "B737"]]⟩ ["Boeing"]
      = ⟨["Herstellerbezeichnung"], [[Value.str "B737"]]⟩ ∧
    update_dashboard ⟨["Herstellerbezeichnung"], [[Value.str "B737"]]⟩ "Hersteller" 10 ["Boeing"]
      = update_dashboard ⟨["Herstellerbezeichnung"], [[Value.str "B737"]]⟩ "Hersteller" 10 [] := by
  have h := C10_no_hersteller_no_filter ⟨["Herstellerbezeichnung"], [[Value.str "B737"]]⟩
    "Hersteller" 10 ["Boeing"] (by decide)
  exact ⟨h.1, h.2.1⟩

/-- C5: in both-mode with both source columns present, every record's key
is the dash-joined string coercion of its manufacturer and model cells —
in particular never missing, so the record is never dropped by
`value_counts` (missing cells render as the text nan rather than skipping
the record); with the model column absent the key falls back to the
manufacturer cell, and with the manufacturer column absent to the sheet's
first column. -/
theorem C5_both_mode_group_key (df : Sheet) (r : List Value) :
    (hersteller ∈ df.cols → modell ∈ df.cols →
      groupKey df "both" r
        = Value.str ((cellAt df.cols r hersteller).pyStr ++ " - "
            ++ (cellAt df.cols r modell).pyStr) ∧
      groupKey df "both" r ≠ Value.missing) ∧
    (modell ∉ df.cols → hersteller ∈ df.cols →
      groupKey df "both" r = cellAt df.cols r hersteller) ∧
    (hersteller ∉ df.cols →
      groupKey df "both" r = cellAt df.cols r (firstCol df)) := by
  refine ⟨?_, ?_, ?_⟩
  · intro h1 h2
    have hk : groupKey df "both" r
        = Value.str ((cellAt df.cols r hersteller).pyStr ++ " - "
            ++ (cellAt df.cols r modell).pyStr) := by
      unfold groupKey
      rw [if_pos rfl, if_pos ⟨h1, h2⟩]
    exact ⟨hk, by rw [hk]; simp⟩
  · intro h2 h1
    unfold groupKey
    rw [if_pos rfl, if_neg (fun h => h2 h.2), if_pos h1]
  · intro h1
    unfold groupKey
    rw [if_pos rfl, if_neg (fun h => h1 h.1), if_neg h1]

/-- Witness for C5 on a two-column sheet with a missing model cell: the key
string-coerces the missing cell instead of dropping the record. -/
theorem C5_both_mode_group_key_witness :
    groupKey ⟨["Hersteller", "Herstellerbezeichnung"], [[Value.str "Cessna", Value.missing]]⟩
        "both" [Value.str "Cessna", Value.missing]
      = Value.str "Cessna - nan" := by
  have h := (C5_both_mode_group_key
    ⟨["Hersteller", "Herstellerbezeichnung"], [[Value.str "Cessna", Value.missing]]⟩
    [Value.str "Cessna", Value.missing]).1 (by decide) (by decide)
  rw [h.1]
  rfl

/-- Dropping the missing cells before extracting the numeric ones changes
nothing: a missing cell has no numeric value. -/
theorem filterMap_asNum_filter (l : List Value) :
    (l.filter (fun v => v ≠ Value.missing)).filterMap Value.asNum
      = l.filterMap Value.asNum := by
  induction l with
  | nil => rfl
  | cons v vs ih =>
    cases v <;> simpa [List.filter_cons, List.filterMap_cons, Value.asNum] using ih

/-- The numeric content of the dropna-ed mass column is `massNums`. -/
theorem massNums_eq (df : Sheet) :
    (massNonMissing df).filterMap Value.asNum = massNums df :=
  filterMap_asNum_filter (df.col mass_col)

/-- The dropna-ed mass column is empty exactly when every cell of the mass
column is missing (`isna().all()`). -/
theorem massNonMissing_eq_nil_iff (df : Sheet) :
    massNonMissing df = [] ↔ ∀ v ∈ df.col mass_col, v = Value.missing := by
  unfold massNonMissing
  rw [List.filter_eq_nil_iff]
  simp

/-- C6: the mean-mass and max-mass cards are the not-applicable sentinel
exactly when the mass column is absent from the sheet or has no non-missing
cell; otherwise they are the mean and the maximum of the numeric values of
the non-missing mass cells (after `load_sheet_data` those are all the
non-missing cells).  The total and the unique-manufacturer count are
computed in every case — the availability of the mass values never
suppresses them. -/
theorem C6_summary_spec (df : Sheet) :
    ((summary_cards df).meanMass = none ↔
      (mass_col ∉ df.cols ∨ massNonMissing df = [])) ∧
    ((summary_cards df).maxMass = none ↔
      (mass_col ∉ df.cols ∨ massNonMissing df = [])) ∧
    (mass_col ∈ df.cols → massNonMissing df ≠ [] →
      (summary_cards df).meanMass
        = some (((massNonMissing df).filterMap Value.asNum).sum
            / (((massNonMissing df).filterMap Value.asNum).length : ℚ)) ∧
      (summary_cards df).maxMass
        = some (listMax ((massNonMissing df).filterMap Value.asNum))) ∧
    (summary_cards df).total = df.rows.length ∧
    ((summary_cards df).uniqueManufacturers
      = if hersteller ∈ df.cols
        then some (((df.col hersteller).filter (fun v => v ≠ Value.missing)).toFinset.card)
        else none) := by
  have hnone : ∀ q : ℚ,
      ((if mass_col ∈ df.cols ∧ ¬∀ v ∈ df.col mass_col, v = Value.missing
        then some q else none) = none
        ↔ (mass_col ∉ df.cols ∨ massNonMissing df = [])) := by
    intro q
    split_ifs with h
    · have : ¬(mass_col ∉ df.cols ∨ massNonMissing df = []) := by
        rw [massNonMissing_eq_nil_iff]
        tauto
      simp [this]
    · have : mass_col ∉ df.cols ∨ massNonMissing df = [] := by
        rw [massNonMissing_eq_nil_iff]
        tauto
      simp [this]
  refine ⟨hnone _, hnone _, ?_, rfl, ?_⟩
  · intro hc hne
    have hcond : mass_col ∈ df.cols ∧ ¬∀ v ∈ df.col mass_col, v = Value.missing :=
      ⟨hc, fun hall => hne ((massNonMissing_eq_nil_iff df).mpr hall)⟩
    constructor
    · show (if mass_col ∈ df.cols ∧ ¬∀ v ∈ df.col mass_col, v = Value.missing
          then some ((massNums df).sum / ((massNums df).length : ℚ)) else none) = _
      rw [if_pos hcond, massNums_eq]
    · show (if mass_col ∈ df.cols ∧ ¬∀ v ∈ df.col mass_col, v = Value.missing
          then some (listMax (massNums df)) else none) = _
      rw [if_pos hcond, massNums_eq]
  · show (if hersteller ∈ df.cols
        then some ((df.col hersteller).filter (fun v => v ≠ Value.missing)).dedup.length
        else none) = _
    split_ifs with h
    · rw [List.card_toFinset]
    · rfl

/-- Witness for C6 on the specification's scenario sheet: three records,
two manufacturers, max mass 1200, and a computed (not N/A) mean. -/
theorem C6_summary_spec_witness :
    (summary_cards ⟨["Hersteller", "höchstzulässige Abflugmasse (kg)"],
        [[Value.str "Cessna", Value.num 1000], [Value.str "Cessna", Value.num 1200],
         [Value.str "Piper", Value.num 900]]⟩).meanMass ≠ none ∧
    (summary_cards ⟨["Hersteller", "höchstzulässige Abflugmasse (kg)"],
        [[Value.str "Cessna", Value.num 1000], [Value.str "Cessna", Value.num 1200],
         [Value.str "Piper", Value.num 900]]⟩).maxMass = some 1200 ∧
    (summary_cards ⟨["Hersteller", "höchstzulässige Abflugmasse (kg)"],
        [[Value.str "Cessna", Value.num 1000], [Value.str "Cessna", Value.num 1200],
         [Value.str "Piper", Value.num 900]]⟩).total = 3 ∧
    (summary_cards ⟨["Hersteller", "höchstzulässige Abflugmasse (kg)"],
        [[Value.str "Cessna", Value.num 1000], [Value.str "Cessna", Value.num 1200],
         [Value.str "Piper", Value.num 900]]⟩).uniqueManufacturers = some 2 := by
  have h := C6_summary_spec ⟨["Hersteller", "höchstzulässige Abflugmasse (kg)"],
    [[Value.str "Cessna", Value.num 1000], [Value.str "Cessna", Value.num 1200],
     [Value.str "Piper", Value.num 900]]⟩
  have h3 := h.2.2.1 (by decide) (by decide)
  refine ⟨?_, h3.2.trans (by decide), h.2.2.2.1.trans rfl, h.2.2.2.2.trans (by decide)⟩
  rw [h3.1]
  exact Option.some_ne_none _

/-- C7: with the mass column present but all its cells missing the
distribution output is the no-mass-data sentinel (an annotated placeholder
figure, not an empty numeric plot), with the mass column absent from the
schema it is the distinct column-not-found sentinel (and never the latter
when the column exists), and with at least one non-missing cell it is the
populated plot over the numeric mass values. -/
theorem C7_distribution_sentinels (df : Sheet) :
    (mass_col ∉ df.cols → density_result df = DistResult.columnNotFound) ∧
    (mass_col ∈ df.cols →
      (density_result df = DistResult.noMassData ↔ massNonMissing df = [])) ∧
    (mass_col ∈ df.cols → density_result df ≠ DistResult.columnNotFound) ∧
    (mass_col ∈ df.cols → massNonMissing df ≠ [] →
      density_result df = DistResult.plot (massNums df)) := by
  refine ⟨?_, ?_, ?_, ?_⟩
  · intro h
    unfold density_result
    rw [if_neg h]
  · intro h
    unfold density_result
    rw [if_pos h]
    by_cases hn : massNonMissing df = []
    · simp [hn]
    · rw [if_pos (List.length_pos.mpr hn)]
      simp [hn]
  · intro h
    unfold density_result
    rw [if_pos h]
    split_ifs <;> simp
  · intro h hn
    unfold density_result
    rw [if_pos h, if_pos (List.length_pos.mpr hn), massNums_eq]

/-- Witness for C7: a sheet without the mass column yields the
column-not-found sentinel, and one whose mass column is entirely missing
yields the no-mass-data sentinel. -/
theorem C7_distribution_sentinels_witness :
    density_result ⟨["Hersteller"], [[Value.str "Cessna"]]⟩ = DistResult.columnNotFound ∧
    density_result ⟨["höchstzulässige Abflugmasse (kg)"], [[Value.missing]]⟩
      = DistResult.noMassData := by
  refine ⟨(C7_distribution_sentinels ⟨["Hersteller"], [[Value.str "Cessna"]]⟩).1 (by decide), ?_⟩
  exact ((C7_distribution_sentinels
    ⟨["höchstzulässige Abflugmasse (kg)"], [[Value.missing]]⟩).2.1 (by decide)).mpr (by decide)

/-- The density curve has one point per linspace grid point: 200. -/
theorem kde_curve_length (data : List ℚ) : (kde_curve data).length = 200 := by
  unfold kde_curve linspace
  rw [List.length_map, List.length_map, List.length_range]

/-- The i-th point of the density curve, for i below 200: the i-th linspace
grid point paired with the KDE evaluated there. -/
theorem kde_curve_getD (data : List ℚ) (i : Nat) (hi : i < 200) :
    (kde_curve data).getD i (0, (0 : ℝ))
      = (listMin data + (i : ℚ) * (listMax data - listMin data) / ((200 : ℚ) - 1),
         gaussian_kde data
           (listMin data + (i : ℚ) * (listMax data - listMin data) / ((200 : ℚ) - 1))) := by
  unfold kde_curve linspace
  rw [List.getD_eq_getElem?_getD, List.getElem?_map, List.getElem?_map,
    List.getElem?_range hi]
  rfl

/-- The sample variance of a two-element dataset in closed form. -/
theorem sampleVar_pair (a b : ℚ) : sampleVar [a, b] = (a - b) ^ 2 / 2 := by
  unfold sampleVar
  simp only [List.length_cons, List.length_nil, List.map_cons, List.map_nil,
    List.sum_cons, List.sum_nil]
  push_cast
  ring_nf

/-- A two-element dataset with distinct values has non-zero sample
variance, so the KDE construction does not raise on it. -/
theorem sampleVar_pair_ne_zero (a b : ℚ) (hab : a ≠ b) : sampleVar [a, b] ≠ 0 := by
  rw [sampleVar_pair]
  have h : a - b ≠ 0 := sub_ne_zero.mpr hab
  positivity

/-- C8 counterexample: the claim quantifies over every sheet whose mass
column has at least one non-missing value, but on a column with exactly one
such value the KDE construction raises (`ValueError` on a single-element
dataset) and on a constant column it raises too (`LinAlgError` on the
singular zero covariance), so for these in-domain sheets no 200-point
density curve exists — the callback throws instead of producing one. -/
theorem C8_density_curve_counterexample :
    massNonMissing ⟨["höchstzulässige Abflugmasse (kg)"], [[Value.num 5]]⟩ ≠ [] ∧
    scipy_kde_curve
      (massNums ⟨["höchstzulässige Abflugmasse (kg)"], [[Value.num 5]]⟩) = none ∧
    massNonMissing ⟨["höchstzulässige Abflugmasse (kg)"],
      [[Value.num 5], [Value.num 5]]⟩ ≠ [] ∧
    scipy_kde_curve
      (massNums ⟨["höchstzulässige Abflugmasse (kg)"],
        [[Value.num 5], [Value.num 5]]⟩) = none := by
  refine ⟨by decide, ?_, by decide, ?_⟩
  · unfold scipy_kde_curve
    rw [if_pos (Or.inl (by decide))]
  · unfold scipy_kde_curve
    have hval : massNums ⟨["höchstzulässige Abflugmasse (kg)"],
        [[Value.num 5], [Value.num 5]]⟩ = [5, 5] := rfl
    rw [if_pos (Or.inr (by rw [hval, sampleVar_pair]; norm_num))]

/-- C8 (amended): for every sheet whose mass column has at least two
non-missing values of non-zero sample variance — exactly the inputs on
which the KDE construction does not raise — the distribution output is the
populated plot over the numeric mass values, the construction succeeds,
and the density curve is the Gaussian-kernel density estimate
(`gaussian_kde`, whose Scott-rule bandwidth is a fixed deterministic
formula in the data) evaluated at exactly 200 points whose i-th
x-coordinate is `min + i*(max-min)/199` — equally spaced with constant
step, starting at the minimum and ending at the maximum of the values —
with each y-coordinate the KDE at its x.  Both the curve and the bandwidth
are pure functions of the input column, so the curve is deterministic.
With one non-missing value or zero variance the construction raises
instead (the counterexample). -/
theorem C8_density_curve_spec (df : Sheet) (hcol : mass_col ∈ df.cols)
    (hn : 2 ≤ (massNums df).length) (hvar : sampleVar (massNums df) ≠ 0) :
    scipy_kde_curve (massNums df) = some (kde_curve (massNums df)) ∧
    density_result df = DistResult.plot (massNums df) ∧
    (kde_curve (massNums df)).length = 200 ∧
    (∀ i, i < 200 →
      ((kde_curve (massNums df)).getD i (0, (0 : ℝ))).1
        = listMin (massNums df)
          + (i : ℚ) * (listMax (massNums df) - listMin (massNums df)) / 199) ∧
    ((kde_curve (massNums df)).getD 0 (0, (0 : ℝ))).1 = listMin (massNums df) ∧
    ((kde_curve (massNums df)).getD 199 (0, (0 : ℝ))).1 = listMax (massNums df) ∧
    (∀ i, i + 1 < 200 →
      ((kde_curve (massNums df)).getD (i + 1) (0, (0 : ℝ))).1
          - ((kde_curve (massNums df)).getD i (0, (0 : ℝ))).1
        = (listMax (massNums df) - listMin (massNums df)) / 199) ∧
    (∀ p ∈ kde_curve (massNums df), p.2 = gaussian_kde (massNums df) p.1) := by
  have hx : ∀ i : Nat, i < 200 →
      ((kde_curve (massNums df)).getD i (0, (0 : ℝ))).1
        = listMin (massNums df)
          + (i : ℚ) * (listMax (massNums df) - listMin (massNums df)) / 199 := by
    intro i hi
    rw [kde_curve_getD _ i hi]
    norm_num
  have hne : massNonMissing df ≠ [] := by
    intro h
    rw [← massNums_eq, h] at hn
    simp at hn
  refine ⟨?_, ?_, kde_curve_length _, hx, ?_, ?_, ?_, ?_⟩
  · unfold scipy_kde_curve
    rw [if_neg (not_or.mpr ⟨by omega, hvar⟩)]
  · unfold density_result
    rw [if_pos hcol, if_pos (List.length_pos.mpr hne), massNums_eq]
  · rw [hx 0 (by norm_num)]
    push_cast
    ring
  · rw [hx 199 (by norm_num)]
    push_cast
    ring
  · intro i hi
    rw [hx (i + 1) hi, hx i (by omega)]
    push_cast
    ring
  · intro p hp
    unfold kde_curve at hp
    rcases List.mem_map.mp hp with ⟨x, _, rfl⟩
    rfl

/-- Witness for the amended C8 on a mass column of two distinct values: the
construction succeeds, the plot is populated, and the curve has 200
points. -/
theorem C8_density_curve_spec_witness :
    scipy_kde_curve (massNums ⟨["höchstzulässige Abflugmasse (kg)"],
        [[Value.num 1], [Value.num 3]]⟩)
      = some (kde_curve (massNums ⟨["höchstzulässige Abflugmasse (kg)"],
          [[Value.num 1], [Value.num 3]]⟩)) ∧
    density_result ⟨["höchstzulässige Abflugmasse (kg)"], [[Value.num 1], [Value.num 3]]⟩
      = DistResult.plot
          (massNums ⟨["höchstzulässige Abflugmasse (kg)"], [[Value.num 1], [Value.num 3]]⟩) ∧
    (kde_curve (massNums ⟨["höchstzulässige Abflugmasse (kg)"],
        [[Value.num 1], [Value.num 3]]⟩)).length = 200 := by
  have h := C8_density_curve_spec
    ⟨["höchstzulässige Abflugmasse (kg)"], [[Value.num 1], [Value.num 3]]⟩
    (by decide) (by decide) (sampleVar_pair_ne_zero 1 3 (by decide))
  exact ⟨h.1, h.2.1, h.2.2.1⟩

end Dashboard
